import Mathlib

/-!
Verification development for the Onboarding_Package repository
(`streamlit_app/repo_fetcher.py`, `streamlit_app/ai_summarizer.py`,
`streamlit_app/html_builder.py`).

The Python modules are shallowly embedded as Lean functions:

* Python `str` is modelled by `String` (a list of unicode code points, matching
  Python's code-point view of strings: `len`, slicing and iteration agree).
* Python `dict` (whose keys here are file paths) is modelled by an association
  list `List (String × String)` in insertion order; `dictInsert` has Python's
  update-in-place-or-append semantics.
* Network I/O (`requests.get` against the GitHub API and raw downloads) is
  modelled by a `Network` oracle; the performed calls are logged in a
  `List NetCall` so that "no network call is made" is expressible.
* The OpenAI chat-completion call is modelled by an `LLM` oracle mapping
  (prompt, attempt index) to `some text` (success) or `none` (an exception,
  e.g. a rate-limit error).
* `datetime.now().strftime(...)` is modelled by passing the formatted current
  date as an explicit argument.
-/

set_option linter.unusedVariables false

namespace Onboarding

/-! ## Python string primitives (on `List Char` / `String`) -/

/-- Model of Python `s.split(sep)` for a one-character separator `sep`:
splits at every occurrence; `"".split(sep) == [""]`. -/
def pySplit (sep : Char) : List Char → List (List Char)
  | [] => [[]]
  | c :: cs =>
    match pySplit sep cs with
    | [] => [[]]
    | s :: ss => if c = sep then [] :: s :: ss else (c :: s) :: ss

/-- Model of Python `s.strip(c)` for a one-character strip set: removes all
leading and trailing occurrences of `c`. -/
def pyStrip (c : Char) (l : List Char) : List Char :=
  ((l.dropWhile (fun x => x = c)).reverse.dropWhile (fun x => x = c)).reverse

/-- Characters stripped by Python `str.strip()` with no argument. -/
def isPySpace (c : Char) : Bool :=
  c = ' ' || c = '\t' || c = '\n' || c = '\r' || c = '\x0b' || c = '\x0c'

/-- Model of Python `s.strip()` (whitespace strip at both ends). -/
def pyStripWs (s : String) : String :=
  ⟨((s.data.dropWhile isPySpace).reverse.dropWhile isPySpace).reverse⟩

/-- Model of Python `s.lower()`.  The repository only ever lowercases ASCII
file paths, where `Char.toLower` agrees with Python. -/
def pyLower (s : String) : String :=
  ⟨s.data.map Char.toLower⟩

/-- Model of Python `s.startswith(p)`. -/
def strStartsWith (s p : String) : Bool :=
  p.data.isPrefixOf s.data

/-- Model of Python `s.endswith(p)`. -/
def strEndsWith (s p : String) : Bool :=
  decide (s.data.drop (s.data.length - p.data.length) = p.data) && decide (p.data.length ≤ s.data.length)

/-- Model of Python `sub in s` (substring containment test). -/
def containsSub (s sub : String) : Bool :=
  (List.range (s.data.length + 1)).any (fun i => sub.data.isPrefixOf (s.data.drop i))

/-- Model of Python `s[:n]` (also the degenerate cases where `n` exceeds the
length). -/
def strTake (s : String) (n : Nat) : String :=
  ⟨s.data.take n⟩

/-- Model of Python `s.replace(old, new)` for a one-character `old`. -/
def pyReplaceChar (s : String) (old : Char) (new : String) : String :=
  ⟨s.data.foldr (fun c acc => if c = old then new.data ++ acc else c :: acc) []⟩

/-- Model of Python `os.path.basename` (posix): the part after the last `/`. -/
def basename (p : String) : String :=
  ⟨(p.data.reverse.takeWhile (fun c => c ≠ '/')).reverse⟩

/-- Model of Python `os.path.dirname` (posix): `head = p[:p.rfind('/')+1]`;
if `head` is nonempty and not all slashes, trailing slashes are stripped. -/
def dirname (p : String) : String :=
  let base := (p.data.reverse.takeWhile (fun c => c ≠ '/')).reverse
  let head := p.data.take (p.data.length - base.length)
  if head ≠ [] ∧ ¬ head.all (fun c => c = '/') then
    ⟨(head.reverse.dropWhile (fun c => c = '/')).reverse⟩
  else ⟨head⟩

/-- Model of Python `"".join(items)`. -/
def joinStrings (l : List String) : String :=
  l.foldr (fun a b => a ++ b) ""

/-- Model of Python `repr` of a list of strings (as interpolated by an
f-string), e.g. `['a.png', 'b.png']`; the standard single-quoted form. -/
def pyReprList (l : List String) : String :=
  "[" ++ joinStrings ((l.map (fun s => "\x27" ++ s ++ "\x27")).intersperse ", ") ++ "]"

/-! ## Python `dict` as an association list -/

/-- Keys of an association-list dictionary, in insertion order. -/
def keys (d : List (String × String)) : List String :=
  d.map Prod.fst

/-- Model of Python `d[k] = v`: update the existing entry in place, else
append a new entry at the end. -/
def dictInsert (d : List (String × String)) (k v : String) : List (String × String) :=
  if k ∈ keys d then d.map (fun kv => if kv.1 = k then (k, v) else kv)
  else d ++ [(k, v)]

/-- Model of Python `d.get(k, dflt)`. -/
def dictGet (d : List (String × String)) (k dflt : String) : String :=
  match d with
  | [] => dflt
  | kv :: rest => if kv.1 = k then kv.2 else dictGet rest k dflt

/-! ## `repo_fetcher.py` -/

/-- Error message raised by `parse_repo_url` (`ValueError`). -/
def invalidUrlMsg : String :=
  "Invalid GitHub URL. Expected format: https://github.com/owner/repo"

/-- Embedding of `parse_repo_url` (repo_fetcher.py:10-16).  `urlparse` is
modelled by taking the URL's parsed path component as the input; the function
strips `/` from both ends, splits on `/`, raises `ValueError` when fewer than
two parts result, and otherwise returns the first two parts. -/
def parse_repo_url (urlPath : String) : Except String (String × String) :=
  let parts := pySplit '/' (pyStrip '/' urlPath.data)
  if h : parts.length < 2 then Except.error invalidUrlMsg
  else Except.ok (⟨parts.get ⟨0, by omega⟩⟩, ⟨parts.get ⟨1, by omega⟩⟩)

/-- One entry of the GitHub recursive tree listing (only the fields the code
reads). -/
structure TreeItem where
  type : String
  path : String
deriving DecidableEq, Repr

/-- Oracle for the three kinds of HTTP requests `fetch_repository_docs`
performs.  `branchResult`/`treeResult` are `none` when the request fails
(`raise_for_status` raises); `download p` is `some text` exactly when the raw
download returns HTTP 200 with body `text`, and `none` otherwise
(`download_raw_file` then returns `None`, repo_fetcher.py:35-41). -/
structure Network where
  branchResult : Option String
  treeResult : Option (List TreeItem)
  download : String → Option String

/-- Log entry for a performed network call. -/
inductive NetCall where
  | branchLookup : String → String → NetCall
  | treeList : String → String → String → NetCall
  | rawDownload : String → String → String → String → NetCall
deriving DecidableEq, Repr

/-- Result dictionary of `fetch_repository_docs` (repo_fetcher.py:86-92). -/
structure FetchResult where
  markdown_files : List (String × String)
  image_files : List String
  branch : String
  repo : String
  owner : String
deriving DecidableEq, Repr

/-- The tuple of image extensions `SUPPORTED_IMAGE_EXTENSIONS`
(repo_fetcher.py:7), as the disjunction `path.endswith(...)` tests. -/
def isImagePath (lowered : String) : Bool :=
  strEndsWith lowered ".png" || strEndsWith lowered ".jpg" || strEndsWith lowered ".jpeg" ||
    strEndsWith lowered ".gif" || strEndsWith lowered ".svg"

/-- One iteration of the tree loop in `fetch_repository_docs`
(repo_fetcher.py:60-81): skip non-blobs; for `.md` blobs (case-insensitive)
download the raw file and record it when the download succeeded with truthy
(non-empty) content; record image paths. -/
def processItem (download : String → Option String)
    (acc : List (String × String) × List String) (item : TreeItem) :
    List (String × String) × List String :=
  if item.type ≠ "blob" then acc
  else
    let path := pyLower item.path
    let original_path := item.path
    let acc1 :=
      if strEndsWith path ".md" then
        match download original_path with
        | some content => if content ≠ "" then (dictInsert acc.1 original_path content, acc.2) else acc
        | none => acc
      else acc
    if isImagePath path then (acc1.1, acc1.2 ++ [original_path]) else acc1

/-- The whole tree loop of `fetch_repository_docs`, starting from the empty
`markdown_files` dict and `image_files` list. -/
def processTree (download : String → Option String) (tree : List TreeItem) :
    List (String × String) × List String :=
  tree.foldl (processItem download) ([], [])

/-- The raw-download calls the tree loop performs, in order: one per `.md`
blob (repo_fetcher.py:71-73). -/
def downloadCalls (owner repo branch : String) (tree : List TreeItem) : List NetCall :=
  tree.filterMap (fun it =>
    if it.type = "blob" ∧ strEndsWith (pyLower it.path) ".md" = true then
      some (NetCall.rawDownload owner repo branch it.path)
    else none)

/-- Embedding of `fetch_repository_docs` (repo_fetcher.py:44-92) together with
the list of network calls it performs.  Parsing failures propagate the
`ValueError`; a failing branch lookup or tree listing propagates the
`requests` `HTTPError` raised by `raise_for_status`. -/
def fetch_repository_docs (net : Network) (urlPath : String) :
    Except String FetchResult × List NetCall :=
  match parse_repo_url urlPath with
  | Except.error e => (Except.error e, [])
  | Except.ok (owner, repo) =>
    match net.branchResult with
    | none => (Except.error "HTTPError", [NetCall.branchLookup owner repo])
    | some branch =>
      match net.treeResult with
      | none => (Except.error "HTTPError",
          [NetCall.branchLookup owner repo, NetCall.treeList owner repo branch])
      | some tree =>
        let res := processTree net.download tree
        (Except.ok ⟨res.1, res.2, branch, repo, owner⟩,
          [NetCall.branchLookup owner repo, NetCall.treeList owner repo branch] ++
            downloadCalls owner repo branch tree)

/-! ## `ai_summarizer.py` -/

/-- Oracle for the OpenAI chat-completion call: given the user prompt and the
retry-attempt index (0-based), returns `some text` (the stripped-to-be model
output `response.choices[0].message.content`) on success and `none` when the
call raises (rate limit or any other exception). -/
structure LLM where
  call : String → Nat → Option String

/-- The truncation marker appended to over-budget content
(ai_summarizer.py:52). -/
def truncMarker : String := "\n\n[... Content truncated for brevity ...]"

/-- Embedding of the truncation step (ai_summarizer.py:50-55): content longer
than 3000 characters is cut to its first 3000 characters plus the marker. -/
def truncateContent (content : String) : String :=
  if content.length > 3000 then strTake content 3000 ++ truncMarker
  else content

/-- The fixed informational sentence appended when related images exist
(ai_summarizer.py:92). -/
def imageNote : String :=
  "\n\nNote: This section includes images/diagrams for improved understanding."

/-- The deterministic fallback summary used when all retries fail
(ai_summarizer.py:105). -/
def fallbackSummary (path : String) : String :=
  "Documentation file: " ++ basename path ++ ". For full details, refer to: [" ++
    basename path ++ "](" ++ path ++ ")"

/-- The related-images computation (ai_summarizer.py:43-45): starts empty, and
when `image_files` is truthy filters it with a plain string-prefix match
against the file's directory. -/
def relatedImagesFor (image_files : Option (List String)) (file_dir : String) : List String :=
  match image_files with
  | none => []
  | some l => if l = [] then [] else l.filter (fun img => strStartsWith img file_dir)

/-- Embedding of the prompt f-string (ai_summarizer.py:58-70). -/
def buildPrompt (path file_dir : String) (related_images : List String)
    (truncated_content : String) : String :=
  "\nSummarize the following markdown file in 3-5 concise sentences.\n\nFile: " ++ path ++
    "\nDirectory: " ++ file_dir ++
    "\nRelated images in same directory: " ++ pyReprList related_images ++
    "\n\nIf there are related images, mention them in the summary.\nEnd with: \"For full details, refer to: [" ++
    basename path ++ "](" ++ path ++
    ")\"\n\nMarkdown content:\n" ++ truncated_content ++ "\n"

/-- The prompt `summarize_markdown_files` builds for a given file. -/
def promptFor (image_files : Option (List String)) (path content : String) : String :=
  buildPrompt path (dirname path) (relatedImagesFor image_files (dirname path))
    (truncateContent content)

/-- The per-file body of `summarize_markdown_files` (ai_summarizer.py:37-107):
compute related images, truncate, build the prompt, call the model with up to
`max_retries = 2` attempts; on success strip the output and append the image
note when related images exist; when both attempts raise, use the fallback
summary (with no image note). -/
def summarize_one (llm : LLM) (image_files : Option (List String))
    (path content : String) : String :=
  let related_images := relatedImagesFor image_files (dirname path)
  let has_images := related_images.length > 0
  let prompt := promptFor image_files path content
  match llm.call prompt 0 with
  | some out => if has_images then pyStripWs out ++ imageNote else pyStripWs out
  | none =>
    match llm.call prompt 1 with
    | some out => if has_images then pyStripWs out ++ imageNote else pyStripWs out
    | none => fallbackSummary path

/-- Embedding of `summarize_markdown_files` (ai_summarizer.py:31-112): one
summary entry is stored per input file, in iteration order. -/
def summarize_markdown_files (llm : LLM) (markdown_files : List (String × String))
    (image_files : Option (List String)) : List (String × String) :=
  markdown_files.foldl
    (fun summaries pc => dictInsert summaries pc.1 (summarize_one llm image_files pc.1 pc.2))
    []

/-! ## `html_builder.py` -/

/-- Embedding of `get_css_styles` (html_builder.py:313-637): the verbatim
CSS stylesheet string returned by the function. -/
def cssStyles : String :=
  "\n        * \x7b\n            margin: 0;\n            padding: 0;\n            box-sizing: border-box;\n        \x7d\n\n        body \x7b\n            font-family: -apple-system, BlinkMacSystemFont, \x27Segoe UI\x27, Roboto, Oxygen, Ubuntu, Cantarell, sans-serif;\n            line-height: 1.6;\n            color: #333;\n            background-color: #ffffff;\n        \x7d\n\n        /* Cover Page Styles */\n        .cover-page \x7b\n            min-height: 100vh;\n            display: flex;\n            flex-direction: column;\n            justify-content: space-between;\n            padding: 60px 40px;\n            background: linear-gradient(135deg, #667eea 0%, #764ba2 100%);\n            color: white;\n            page-break-after: always;\n        \x7d\n\n        .cover-header \x7b\n            text-align: right;\n        \x7d\n\n        .company-branding .company-name \x7b\n            font-size: 2rem;\n            font-weight: 700;\n            margin-bottom: 5px;\n        \x7d\n\n        .company-tagline \x7b\n            font-size: 1.1rem;\n            opacity: 0.9;\n        \x7d\n\n        .cover-main \x7b\n            text-align: center;\n            flex: 1;\n            display: flex;\n            flex-direction: column;\n            justify-content: center;\n        \x7d\n\n        .project-title \x7b\n            font-size: 4rem;\n            font-weight: 800;\n            margin-bottom: 20px;\n            text-shadow: 2px 2px 4px rgba(0,0,0,0.3);\n        \x7d\n\n        .subtitle \x7b\n            font-size: 1.8rem;\n            font-weight: 300;\n            margin-bottom:"
    ++ " 60px;\n            opacity: 0.9;\n        \x7d\n\n        .project-info \x7b\n            background: rgba(255,255,255,0.1);\n            padding: 30px;\n            border-radius: 10px;\n            backdrop-filter: blur(10px);\n            max-width: 600px;\n            margin: 0 auto;\n        \x7d\n\n        .info-item \x7b\n            display: flex;\n            justify-content: space-between;\n            margin-bottom: 15px;\n            padding: 8px 0;\n            border-bottom: 1px solid rgba(255,255,255,0.2);\n        \x7d\n\n        .info-item:last-child \x7b\n            border-bottom: none;\n        \x7d\n\n        .label \x7b\n            font-weight: 600;\n        \x7d\n\n        .value \x7b\n            font-weight: 400;\n        \x7d\n\n        .repo-link \x7b\n            color: #ffffff;\n            text-decoration: none;\n            border-bottom: 1px dotted rgba(255,255,255,0.5);\n        \x7d\n\n        .repo-link:hover \x7b\n            border-bottom: 1px solid rgba(255,255,255,0.8);\n        \x7d\n\n        .cover-footer \x7b\n            text-align: center;\n            font-size: 1.1rem;\n            opacity: 0.8;\n        \x7d\n\n        /* Table of Contents Styles */\n        .toc-page \x7b\n            min-height: 100vh;\n            padding: 60px 40px;\n            page-break-after: always;\n        \x7d\n\n        .page-title \x7b\n            font-size: 3rem;\n            font-weight: 700;\n            color: #2d3748;\n            margin-bottom: 30px;\n            text-align: center;\n        \x7d\n\n        .toc-summary \x7b\n            text-align: center;\n          "
    ++ "  margin-bottom: 50px;\n            font-size: 1.1rem;\n            color: #666;\n        \x7d\n        .toc-category \x7b\n        font-size: 1.1rem;\n        color: #667eea;\n        margin: 15px 0 5px 0;\n        padding: 8px 15px;\n        background: #f0f4ff;\n        border-left: 4px solid #667eea;\n        font-weight: 600;\n        \x7d\n\n        .toc-list \x7b\n            list-style: none;\n            max-width: 800px;\n            margin: 0 auto;\n        \x7d\n\n        .toc-list li \x7b\n            margin-bottom: 15px;\n            padding: 15px 20px;\n            background: #f7fafc;\n            border-radius: 8px;\n            border-left: 4px solid #667eea;\n        \x7d\n\n        .toc-list a \x7b\n            text-decoration: none;\n            color: #2d3748;\n            font-size: 1.1rem;\n            font-weight: 500;\n        \x7d\n\n        .toc-list a:hover \x7b\n            color: #667eea;\n        \x7d\n\n        /* Content Section Styles */\n        .content-pages \x7b\n            max-width: 900px;\n            margin: 0 auto;\n            padding: 40px;\n        \x7d\n\n        .section \x7b\n            margin-bottom: 60px;\n            padding-bottom: 40px;\n            border-bottom: 2px solid #e2e8f0;\n            page-break-inside: avoid;\n        \x7d\n\n        .section:last-child \x7b\n            border-bottom: none;\n        \x7d\n\n        .section-title \x7b\n            font-size: 2rem;\n            font-weight: 700;\n            color: #2d3748;\n            margin-bottom: 10px;\n        \x7d\n\n        .section-path \x7b\n            font-family: \x27Cou"
    ++ "rier New\x27, monospace;\n            font-size: 0.9rem;\n            color: #666;\n            background: #f7fafc;\n            padding: 8px 12px;\n            border-radius: 5px;\n            margin-bottom: 25px;\n            display: inline-block;\n        \x7d\n\n        .section-content \x7b\n            font-size: 1.1rem;\n            line-height: 1.7;\n        \x7d\n\n        .section-content p \x7b\n            margin-bottom: 15px;\n        \x7d\n\n        .note \x7b\n            background: #fff5cd;\n            border: 1px solid #f6e05e;\n            border-radius: 5px;\n            padding: 15px;\n            margin: 20px 0;\n            font-style: italic;\n        \x7d\n\n        .reference \x7b\n            background: #e6fffa;\n            border: 1px solid #81e6d9;\n            border-radius: 5px;\n            padding: 12px;\n            margin: 15px 0;\n            font-size: 0.95rem;\n        \x7d\n\n        /* Footer Styles */\n        .document-footer \x7b\n            background: #f7fafc;\n            padding: 30px;\n            text-align: center;\n            color: #666;\n            border-top: 2px solid #e2e8f0;\n            margin-top: 60px;\n        \x7d\n\n        .document-footer p \x7b\n            margin-bottom: 10px;\n        \x7d\n\n        .document-footer a \x7b\n            color: #667eea;\n            text-decoration: none;\n        \x7d\n        /* File Link Styles */\n        .file-link \x7b\n            color: #667eea;\n            text-decoration: none;\n        \x7d\n\n        .file-link:hover \x7b\n            text-decoration: underline;\n        \x7d\n"
    ++ "\n        /* Image Gallery Styles */\n        .image-gallery \x7b\n            margin: 25px 0;\n            padding: 20px;\n            background: #f8fafc;\n            border-radius: 8px;\n            border: 1px solid #e2e8f0;\n        \x7d\n\n        .image-gallery h4 \x7b\n            margin-bottom: 15px;\n            color: #4a5568;\n        \x7d\n\n        .image-item \x7b\n            margin: 15px 0;\n            text-align: center;\n        \x7d\n\n        .content-image \x7b\n            max-width: 100%;\n            max-height: 300px;\n            border-radius: 5px;\n            box-shadow: 0 4px 6px rgba(0, 0, 0, 0.1);\n            border: 1px solid #e2e8f0;\n        \x7d\n\n        .image-caption \x7b\n            margin-top: 8px;\n            font-size: 0.9rem;\n            color: #666;\n            font-style: italic;\n        \x7d\n\n        /* Print Styles */\n        @media print \x7b\n            .cover-page,\n            .toc-page \x7b\n                page-break-after: always;\n            \x7d\n            \n            .section \x7b\n                page-break-inside: avoid;\n            \x7d\n        \x7d\n\n        /* Responsive Design */\n        @media (max-width: 768px) \x7b\n            .cover-page,\n            .toc-page,\n            .content-pages \x7b\n                padding: 30px 20px;\n            \x7d\n            \n            .project-title \x7b\n                font-size: 2.5rem;\n            \x7d\n            \n            .page-title \x7b\n                font-size: 2rem;\n            \x7d\n            \n            .info-item \x7b\n                flex-direction: co"
    ++ "lumn;\n                gap: 5px;\n            \x7d\n        \x7d\n    "

/-! Literal segments of the `html_template` f-string
(html_builder.py:119-195), in order; the two block markers the claims talk
about (`cover-page`, `document-footer`) are kept as their own segments. -/

def tplDoctype : String :=
  "\n<!DOCTYPE html>\n<html lang=\"en\">\n<head>\n    <meta charset=\"UTF-8\">\n    <meta name=\"viewport\" content=\"width=device-width, initial-scale=1.0\">\n    <title>"

def tplTitleToStyle : String :=
  " - Onboarding Documentation</title>\n    <style>\n        "

def tplStyleToCover : String :=
  "\n    </style>\n</head>\n<body>\n    <!-- Cover Page -->\n    "

def coverDivLit : String :=
  "<div class=\"cover-page\">"

def tplCoverToCompany : String :=
  "\n        <div class=\"cover-header\">\n            <div class=\"company-branding\">\n                <h1 class=\"company-name\">"

def tplCompanyToProject : String :=
  "</h1>\n                <div class=\"company-tagline\">Knowledge Base Documentation</div>\n            </div>\n        </div>\n        \n        <div class=\"cover-main\">\n            <h1 class=\"project-title\">"

def tplProjectToRepoHref : String :=
  "</h1>\n            <h2 class=\"subtitle\">Onboarding Documentation</h2>\n            \n            <div class=\"project-info\">\n                <div class=\"info-item\">\n                    <span class=\"label\">Repository:</span>\n                    <a href=\""

def tplRepoHrefToText : String :=
  "\" target=\"_blank\" class=\"repo-link\">"

def tplRepoTextToAuthor : String :=
  "</a>\n                </div>\n                <div class=\"info-item\">\n                    <span class=\"label\">Author:</span>\n                    <span class=\"value\">"

def tplAuthorToDate : String :=
  "</span>\n                </div>\n                <div class=\"info-item\">\n                    <span class=\"label\">Generated:</span>\n                    <span class=\"value\">"

def tplDateToBranchSeg : String :=
  "</span>\n                </div>\n                <div class=\"info-item\">\n                    <span class=\"label\">Branch:</span>\n                    <span class=\"value\">"

def tplBranchToCount : String :=
  "</span>\n                </div>\n            </div>\n        </div>\n        \n        <div class=\"cover-footer\">\n            <p>This document provides an overview of the repository structure and key documentation files.</p>\n        </div>\n    </div>\n\n    <!-- Table of Contents Page -->\n    <div class=\"toc-page\">\n        <h1 class=\"page-title\">Table of Contents</h1>\n        <div class=\"toc-summary\">\n            <p>This document contains <strong>"

def tplCountToToc : String :=
  "</strong> sections covering the main documentation files in the repository.</p>\n        </div>\n        <ul class=\"toc-list\">\n            "

def tplTocToSections : String :=
  "\n        </ul>\n    </div>\n\n    <!-- Content Sections -->\n    <div class=\"content-pages\">\n        "

def tplSectionsToGallery : String :=
  "\n    </div>\n\n    <!-- Image Gallery Section -->\n    "

def tplGalleryToFooter : String :=
  "\n\n    <!-- Footer -->\n    "

def footerDivLit : String :=
  "<div class=\"document-footer\">"

def tplFooterToRepoHref : String :=
  "\n        <p>Generated by AI-Powered Onboarding Documentation System</p>\n        <p>For the most up-to-date information, please refer to the repository at <a href=\""

def tplFooterHrefToText : String :=
  "\">"

def tplEnd : String :=
  "</a></p>\n    </div>\n</body>\n</html>\n"

/-! Literal segments of the `create_file_section` f-string
(html_builder.py:44-52). -/

def fsLit1 : String :=
  "\n        <div class=\"section\" id=\""

def fsLit2 : String :=
  "\">\n            <h2 class=\"section-title\">"

def fsLit3 : String :=
  "</h2>\n            <div class=\"section-path\">\uf8ff\u00fc\u00ec\u00c5 <a href=\""

def fsLit4 : String :=
  "\" target=\"_blank\" class=\"file-link\">"

def fsLit5 : String :=
  "</a></div>\n            <div class=\"section-content\">\n                "

def fsLit6 : String :=
  "\n            </div>\n        </div>\n    "

/-! Literal segments of `create_image_gallery_section`
(html_builder.py:199-280). -/

def galIntroLit : String :=
  "\n    <div class=\"image-gallery-section\">\n        <h1 class=\"gallery-title\">\uf8ff\u00fc\u00e9\u00ae Visual Assets & Architecture</h1>\n        <div class=\"gallery-intro\">\n            <p>This section contains all visual assets found in the repository, organized by type.</p>\n        </div>\n    "

def archHeaderLit : String :=
  "<h2 class=\"gallery-category\">\uf8ff\u00fc\u00e8\u00f3\u00d4\u220f\u00e8 Architecture & Diagrams</h2><div class=\"image-grid\">"

def screenHeaderLit : String :=
  "<h2 class=\"gallery-category\">\uf8ff\u00fc\u00ec\u2211 Screenshots & Demos</h2><div class=\"image-grid\">"

def otherHeaderLit : String :=
  "<h2 class=\"gallery-category\">\uf8ff\u00fc\u00f1\u00ba\u00d4\u220f\u00e8 Other Images</h2><div class=\"image-grid\">"

def giLit1 : String :=
  "\n                <div class=\"gallery-item\">\n                    <img src=\""

def giLit2 : String :=
  "\" alt=\""

def giLit3 : String :=
  "\" class=\"gallery-image\" />\n                    <div class=\"gallery-caption\">\n                        <strong>"

def giLit4 : String :=
  "</strong><br>\n                        <small>\uf8ff\u00fc\u00ec\u00c5 "

def giLit5 : String :=
  "</small>\n                    </div>\n                </div>\n            "

/-- The category decision chain of `organize_content_for_html`
(html_builder.py:17-31), as the index (0-4) of the bucket a path lands in:
0 = "README and Main Docs" (lowercased basename `readme.md`/`index.md`),
1 = "Documentation" (lowercased directory contains `doc` or `guide`),
2 = "Guides and Tutorials" (`tutorial` or `example`),
3 = "API Reference" (`api` or `reference`), 4 = "Other Files". -/
def categoryIdx (path : String) : Nat :=
  let file_name := pyLower (basename path)
  let dir_name := pyLower (dirname path)
  if file_name = "readme.md" ∨ file_name = "index.md" then 0
  else if containsSub dir_name "doc" ∨ containsSub dir_name "guide" then 1
  else if containsSub dir_name "tutorial" ∨ containsSub dir_name "example" then 2
  else if containsSub dir_name "api" ∨ containsSub dir_name "reference" then 3
  else 4

/-- One bucket of `organize_content_for_html`: the paths of `markdown_files`
(in iteration order) whose category index is `i`, each mapped to
`summaries.get(path, "")`. -/
def bucket (markdown_files summaries : List (String × String)) (i : Nat) :
    List (String × String) :=
  (keys markdown_files).filterMap
    (fun p => if categoryIdx p = i then some (p, dictGet summaries p "") else none)

/-- Embedding of `organize_content_for_html` (html_builder.py:5-33): the five
fixed categories in insertion order; the single pass that appends each path to
exactly one bucket is rendered as one filter per bucket. -/
def organize_content_for_html (markdown_files summaries : List (String × String)) :
    List (String × List (String × String)) :=
  [("README and Main Docs", bucket markdown_files summaries 0),
   ("Documentation", bucket markdown_files summaries 1),
   ("Guides and Tutorials", bucket markdown_files summaries 2),
   ("API Reference", bucket markdown_files summaries 3),
   ("Other Files", bucket markdown_files summaries 4)]

/-- The organization branch of `generate_onboarding_html`
(html_builder.py:77-82): `if markdown_files and len(summaries) > 20`, where
Python truthiness makes both `None` and the empty dict fall to the simple
single-category structure. -/
def chooseOrganized (summaries : List (String × String))
    (markdown_files : Option (List (String × String))) :
    List (String × List (String × String)) :=
  match markdown_files with
  | some md =>
    if md ≠ [] ∧ summaries.length > 20 then organize_content_for_html md summaries
    else [("Documentation", summaries)]
  | none => [("Documentation", summaries)]

/-- Attempt to match the regex `\[([^\]]+)\]\(([^)]+)\)` at the start of the
given character list, returning the two capture groups (link name, link path)
on success. -/
def tryMdLinkAt : List Char → Option (List Char × List Char)
  | '[' :: rest =>
    let nm := rest.takeWhile (fun c => c ≠ ']')
    (match nm, rest.dropWhile (fun c => c ≠ ']') with
     | [], _ => none
     | _ :: _, ']' :: '(' :: rest2 =>
       let url := rest2.takeWhile (fun c => c ≠ ')')
       (match url, rest2.dropWhile (fun c => c ≠ ')') with
        | [], _ => none
        | _ :: _, ')' :: _ => some (nm, url)
        | _, _ => none)
     | _, _ => none)
  | _ => none

/-- Model of `re.search(r'\[([^\]]+)\]\(([^)]+)\)', para)`: the leftmost
match of the markdown-link pattern. -/
def findMdLink : List Char → Option (List Char × List Char)
  | [] => none
  | c :: cs =>
    match tryMdLinkAt (c :: cs) with
    | some r => some r
    | none => findMdLink cs

/-- Embedding of `format_summary_content` (html_builder.py:282-310): split the
summary on blank lines, strip each paragraph and drop empty ones; a paragraph
starting with `Note:` becomes a note div; a paragraph containing the
reference phrase (when owner and repo name are truthy) becomes a reference
div, with a matched markdown link rewritten to a full GitHub `blob/main`
link; everything else becomes a plain paragraph. -/
def format_summary_content (summary : String) (owner repo_name : String) : String :=
  let paragraphs := summary.splitOn "\n\n"
  joinStrings (paragraphs.filterMap (fun para0 =>
    let para := pyStripWs para0
    if para = "" then none
    else if strStartsWith para "Note:" then
      some ("<div class=\"note\">" ++ para ++ "</div>")
    else if containsSub para "For full details, refer to:" ∧ owner ≠ "" ∧ repo_name ≠ "" then
      let para2 :=
        match findMdLink para.data with
        | some (nm, url) =>
          "For full details, refer to: <a href=\"" ++
            ("https://github.com/" ++ owner ++ "/" ++ repo_name ++ "/blob/main/" ++ (⟨url⟩ : String)) ++
            "\" target=\"_blank\" class=\"file-link\">" ++ (⟨nm⟩ : String) ++ "</a>"
        | none => para
      some ("<div class=\"reference\">" ++ para2 ++ "</div>")
    else some ("<p>" ++ para ++ "</p>")))

/-- Embedding of `create_file_section` (html_builder.py:35-52).  The file URL
is built with the literal branch name `main`. -/
def create_file_section (file_path summary section_id : String)
    (image_files : Option (List String)) (owner repo_name : String) : String :=
  let display_name :=
    pyReplaceChar (pyReplaceChar (pyReplaceChar file_path '/' " / ") '_' " ") '-' " "
  let file_url := "https://github.com/" ++ owner ++ "/" ++ repo_name ++ "/blob/main/" ++ file_path
  fsLit1 ++ section_id ++ fsLit2 ++ display_name ++ fsLit3 ++ file_url ++ fsLit4 ++
    file_path ++ fsLit5 ++ format_summary_content summary owner repo_name ++ fsLit6

/-- The architecture-keyword test of the gallery categorization
(html_builder.py:213). -/
def isArchImage (img : String) : Bool :=
  ["architecture", "diagram", "flow", "design"].any (fun k => containsSub (pyLower img) k)

/-- The screenshot-keyword test of the gallery categorization
(html_builder.py:215). -/
def isScreenImage (img : String) : Bool :=
  ["screenshot", "screen", "demo"].any (fun k => containsSub (pyLower img) k)

/-- One gallery item of `create_image_gallery_section`
(html_builder.py:234-242, identical template in all three buckets).  The raw
image URL is built with the literal branch name `main`. -/
def galleryItemHtml (owner repo_name img_path : String) : String :=
  let img_url := "https://raw.githubusercontent.com/" ++ owner ++ "/" ++ repo_name ++ "/main/" ++ img_path
  let img_name := basename img_path
  giLit1 ++ img_url ++ giLit2 ++ img_name ++ giLit3 ++ img_name ++ giLit4 ++ img_path ++ giLit5

/-- Embedding of `create_image_gallery_section` (html_builder.py:199-280):
empty (falsy) image list yields the empty string; otherwise the images are
partitioned into architecture / screenshot / other buckets (first matching
bucket wins) and each nonempty bucket renders a header plus its items. -/
def create_image_gallery_section (image_files : Option (List String))
    (owner repo_name : String) : String :=
  match image_files with
  | none => ""
  | some imgs =>
    if imgs = [] then ""
    else
      let architecture_images := imgs.filter isArchImage
      let screenshot_images := imgs.filter (fun i => !(isArchImage i) && isScreenImage i)
      let other_images := imgs.filter (fun i => !(isArchImage i) && !(isScreenImage i))
      galIntroLit ++
        (if architecture_images ≠ [] then
          archHeaderLit ++ joinStrings (architecture_images.map (galleryItemHtml owner repo_name)) ++ "</div>"
         else "") ++
        (if screenshot_images ≠ [] then
          screenHeaderLit ++ joinStrings (screenshot_images.map (galleryItemHtml owner repo_name)) ++ "</div>"
         else "") ++
        (if other_images ≠ [] then
          otherHeaderLit ++ joinStrings (other_images.map (galleryItemHtml owner repo_name)) ++ "</div>"
         else "") ++
        "</div>"

/-- A TOC category header entry (html_builder.py:95). -/
def tocCategoryItem (category : String) (n : Nat) : String :=
  "<li class=\"toc-category\">" ++ category ++ " (" ++ toString n ++ " files)</li>"

/-- A TOC per-file entry (html_builder.py:102). -/
def tocFileItem (section_id file_path : String) : String :=
  "<li><a href=\"#" ++ section_id ++ "\">" ++ basename file_path ++ "</a></li>"

/-- The TOC/section loop of `generate_onboarding_html` (html_builder.py:85-113):
running state is (toc_items, section_content, section_counter), starting at
`([], [], 1)`; empty categories are skipped; a category header is added only
when more than one category exists. -/
def buildSections (organized : List (String × List (String × String)))
    (owner repo_name : String) : List String × List String × Nat :=
  organized.foldl
    (fun st cat =>
      if cat.2 = [] then st
      else
        let toc1 := if organized.length > 1 then st.1 ++ [tocCategoryItem cat.1 cat.2.length] else st.1
        cat.2.foldl
          (fun st2 fs =>
            (st2.1 ++ [tocFileItem ("section-" ++ toString st2.2.2) fs.1],
             st2.2.1 ++ [create_file_section fs.1 fs.2 ("section-" ++ toString st2.2.2) none owner repo_name],
             st2.2.2 + 1))
          (toc1, st.2.1, st.2.2))
    ([], [], 1)

/-- The part of the `html_template` output that precedes the embedded current
date. -/
def htmlBeforeDate (repo_name company github_url author : String) : String :=
  tplDoctype ++ repo_name ++ tplTitleToStyle ++ cssStyles ++ tplStyleToCover ++
    coverDivLit ++ tplCoverToCompany ++ company ++ tplCompanyToProject ++ repo_name ++
    tplProjectToRepoHref ++ github_url ++ tplRepoHrefToText ++ github_url ++
    tplRepoTextToAuthor ++ author ++ tplAuthorToDate

/-- The part of the `html_template` output between the current date and the
branch field. -/
def htmlDateToBranch : String := tplDateToBranchSeg

/-- The part of the `html_template` output after the branch field. -/
def htmlAfterBranch (nSummaries : Nat) (toc_items section_content : List String)
    (image_gallery_section github_url : String) : String :=
  tplBranchToCount ++ toString nSummaries ++ tplCountToToc ++ joinStrings toc_items ++
    tplTocToSections ++ joinStrings section_content ++ tplSectionsToGallery ++
    image_gallery_section ++ tplGalleryToFooter ++ footerDivLit ++ tplFooterToRepoHref ++
    github_url ++ tplFooterHrefToText ++ github_url ++ tplEnd

/-- Embedding of `generate_onboarding_html` (html_builder.py:54-197).
`datetime.now().strftime("%B %d, %Y")` is passed in as `current_date`; the
output is the f-string `html_template`, written as the concatenation of its
literal segments and interpolated values in order. -/
def generate_onboarding_html (summaries repo_meta : List (String × String))
    (author company : String) (markdown_files : Option (List (String × String)))
    (image_files : Option (List String)) (current_date : String) : String :=
  let repo_name := dictGet repo_meta "repo" "Repository"
  let owner := dictGet repo_meta "owner" "Unknown"
  let github_url := "https://github.com/" ++ owner ++ "/" ++ repo_name
  let organized_content := chooseOrganized summaries markdown_files
  let bs := buildSections organized_content owner repo_name
  let image_gallery_section := create_image_gallery_section image_files owner repo_name
  htmlBeforeDate repo_name company github_url author ++
    current_date ++
    htmlDateToBranch ++
    dictGet repo_meta "branch" "main" ++
    htmlAfterBranch summaries.length bs.1 bs.2.1 image_gallery_section github_url

/-! ## General helper lemmas -/

theorem strData_append (a b : String) : (a ++ b).data = a.data ++ b.data := rfl

theorem strAppend_assoc (a b c : String) : a ++ b ++ c = a ++ (b ++ c) :=
  congrArg String.mk (List.append_assoc a.data b.data c.data)

/-- Substring containment of `m` in `s`, as existence of a decomposition. -/
def strContains (s m : String) : Prop :=
  ∃ u v : List Char, s.data = u ++ m.data ++ v

theorem strContains_refl (m : String) : strContains m m :=
  ⟨[], [], by simp⟩

theorem strContains_append_left (a b m : String) (h : strContains a m) :
    strContains (a ++ b) m := by
  obtain ⟨u, v, hv⟩ := h
  exact ⟨u, v ++ b.data, by simp [strData_append, hv]⟩

theorem strContains_append_right (a b m : String) (h : strContains b m) :
    strContains (a ++ b) m := by
  obtain ⟨u, v, hv⟩ := h
  exact ⟨a.data ++ u, v, by simp [strData_append, hv]⟩

@[simp] theorem keys_nil : keys [] = [] := rfl

@[simp] theorem keys_cons (kv : String × String) (d : List (String × String)) :
    keys (kv :: d) = kv.1 :: keys d := rfl

@[simp] theorem keys_append (d e : List (String × String)) :
    keys (d ++ e) = keys d ++ keys e := by
  simp [keys]

theorem keys_updateMap (d : List (String × String)) (k v : String) :
    keys (d.map (fun kv => if kv.1 = k then (k, v) else kv)) = keys d := by
  induction d with
  | nil => rfl
  | cons kv rest ih =>
    by_cases h : kv.1 = k <;> simp [h, ih]

theorem mem_keys_dictInsert (d : List (String × String)) (k v q : String) :
    q ∈ keys (dictInsert d k v) ↔ q = k ∨ q ∈ keys d := by
  unfold dictInsert
  by_cases hk : k ∈ keys d
  · rw [if_pos hk, keys_updateMap]
    constructor
    · exact fun h => Or.inr h
    · rintro (rfl | h)
      · exact hk
      · exact h
  · rw [if_neg hk]
    simp [or_comm]

theorem keys_dictInsert_of_not_mem (d : List (String × String)) (k v : String)
    (h : k ∉ keys d) : keys (dictInsert d k v) = keys d ++ [k] := by
  simp [dictInsert, h]

theorem dictGet_append_of_not_mem (d e : List (String × String)) (k dflt : String)
    (h : k ∉ keys d) : dictGet (d ++ e) k dflt = dictGet e k dflt := by
  induction d with
  | nil => rfl
  | cons kv rest ih =>
    simp only [keys_cons, List.mem_cons] at h
    push_neg at h
    simp [dictGet, List.cons_append, Ne.symm h.1, ih h.2]

theorem dictGet_updateMap_self (d : List (String × String)) (k v dflt : String)
    (hk : k ∈ keys d) :
    dictGet (d.map (fun kv => if kv.1 = k then (k, v) else kv)) k dflt = v := by
  induction d with
  | nil => simp at hk
  | cons kv rest ih =>
    by_cases h : kv.1 = k
    · simp [dictGet, h]
    · simp only [keys_cons, List.mem_cons] at hk
      rcases hk with hk | hk
      · exact absurd hk.symm h
      · simp [dictGet, h, ih hk]

theorem dictGet_dictInsert_self (d : List (String × String)) (k v dflt : String) :
    dictGet (dictInsert d k v) k dflt = v := by
  unfold dictInsert
  by_cases hk : k ∈ keys d
  · rw [if_pos hk]
    exact dictGet_updateMap_self d k v dflt hk
  · rw [if_neg hk, dictGet_append_of_not_mem _ _ _ _ hk]
    simp [dictGet]

theorem dictGet_updateMap_ne (d : List (String × String)) (k v q dflt : String)
    (hne : q ≠ k) :
    dictGet (d.map (fun kv => if kv.1 = k then (k, v) else kv)) q dflt = dictGet d q dflt := by
  induction d with
  | nil => rfl
  | cons kv rest ih =>
    by_cases h : kv.1 = k
    · have hkq : ¬ k = q := fun hh => hne hh.symm
      have hkvq : ¬ kv.1 = q := by rw [h]; exact hkq
      simp [dictGet, h, hkq, hkvq, ih]
    · by_cases hq : kv.1 = q
      · simp [dictGet, h, hq, hne]
      · simp [dictGet, h, hq, ih]

theorem dictGet_append_single_ne (d : List (String × String)) (k v q dflt : String)
    (hne : q ≠ k) : dictGet (d ++ [(k, v)]) q dflt = dictGet d q dflt := by
  induction d with
  | nil => simp [dictGet, Ne.symm hne]
  | cons kv rest ih =>
    by_cases hq : kv.1 = q <;> simp [dictGet, hq, ih]

theorem dictGet_dictInsert_ne (d : List (String × String)) (k v q dflt : String)
    (hne : q ≠ k) : dictGet (dictInsert d k v) q dflt = dictGet d q dflt := by
  unfold dictInsert
  by_cases hk : k ∈ keys d
  · rw [if_pos hk]
    exact dictGet_updateMap_ne d k v q dflt hne
  · rw [if_neg hk]
    exact dictGet_append_single_ne d k v q dflt hne

theorem strEndsWith_append (s t : String) : strEndsWith (s ++ t) t = true := by
  simp only [strEndsWith, strData_append, List.length_append, Nat.add_sub_cancel,
    List.drop_left, Bool.and_eq_true, decide_eq_true_eq]
  exact ⟨trivial, Nat.le_add_left _ _⟩

/-! ## Lemmas about `summarize_markdown_files` -/

theorem keys_summarize_foldl (llm : LLM) (imgs : Option (List String)) :
    ∀ (l acc : List (String × String)), (keys l).Nodup →
      (∀ x ∈ keys l, x ∉ keys acc) →
      keys (l.foldl
        (fun summaries pc => dictInsert summaries pc.1 (summarize_one llm imgs pc.1 pc.2))
        acc) = keys acc ++ keys l := by
  intro l
  induction l with
  | nil => intro acc _ _; simp
  | cons pc rest ih =>
    intro acc hnd hdisj
    simp only [List.foldl_cons]
    have hpc : pc.1 ∉ keys acc := hdisj pc.1 (by simp)
    have hkeys := keys_dictInsert_of_not_mem acc pc.1 (summarize_one llm imgs pc.1 pc.2) hpc
    have hnd' : (keys rest).Nodup := by
      simpa [keys] using hnd.of_cons
    have hhead : pc.1 ∉ keys rest := by
      simp only [keys_cons] at hnd
      exact (List.nodup_cons.mp hnd).1
    rw [ih (dictInsert acc pc.1 (summarize_one llm imgs pc.1 pc.2)) hnd' ?_]
    · rw [hkeys]
      simp
    · intro x hx
      rw [hkeys]
      simp only [List.mem_append, List.mem_singleton]
      rintro (h | rfl)
      · exact hdisj x (by simp [hx]) h
      · exact hhead hx

/-- Successful model calls always yield a summary ending in the image note
when related images exist. -/
theorem summarize_note_of_success (llm : LLM) (imgs : Option (List String))
    (path content : String)
    (hrel : 0 < (relatedImagesFor imgs (dirname path)).length)
    (hsucc : (llm.call (promptFor imgs path content) 0).isSome ∨
      (llm.call (promptFor imgs path content) 1).isSome) :
    strEndsWith (summarize_one llm imgs path content) imageNote = true := by
  unfold summarize_one
  rcases h0 : llm.call (promptFor imgs path content) 0 with _ | out
  · rcases h1 : llm.call (promptFor imgs path content) 1 with _ | out
    · rcases hsucc with hs | hs
      · rw [h0] at hs; simp at hs
      · rw [h1] at hs; simp at hs
    · simp only [h0, h1, hrel, if_pos]
      exact strEndsWith_append _ _
  · simp only [h0, hrel, if_pos]
    exact strEndsWith_append _ _

/-- A model oracle whose every call raises (e.g. persistent rate limiting). -/
def llmAllFail : LLM := ⟨fun _ _ => none⟩

/-- A model oracle that always succeeds with a fixed output. -/
def llmOk : LLM := ⟨fun _ _ => some "A summary."⟩

/-- A content string strictly longer than the 3000-character budget. -/
def longContent : String := ⟨List.replicate 3001 'a'⟩

/-! ## Claim C3 -/

/-- C3: for every input mapping of markdown files (a Python dict, so its keys
are distinct) and every behaviour of the external summarization call — encoded
by an arbitrary `LLM` oracle, covering success on any attempt and failure of
all attempts — the mapping returned by `summarize_markdown_files` has exactly
the same key list as the input mapping: every input path maps to exactly one
summary and no extra keys appear. -/
theorem C3_summarize_keys (llm : LLM) (markdown_files : List (String × String))
    (image_files : Option (List String)) (hnd : (keys markdown_files).Nodup) :
    keys (summarize_markdown_files llm markdown_files image_files) = keys markdown_files := by
  unfold summarize_markdown_files
  have h := keys_summarize_foldl llm image_files markdown_files [] hnd (by simp)
  simpa using h

/-- Witness for C3 at a concrete two-file input with an always-failing model. -/
theorem C3_summarize_keys_witness :
    (keys [("README.md", "hello"), ("docs/a.md", "x")]).Nodup ∧
    keys (summarize_markdown_files llmAllFail [("README.md", "hello"), ("docs/a.md", "x")]
      (some ["img.png"])) = keys [("README.md", "hello"), ("docs/a.md", "x")] :=
  ⟨by decide, C3_summarize_keys llmAllFail _ (some ["img.png"]) (by decide)⟩

/-! ## Claim C4 -/

/-- C4: in `summarize_markdown_files`, content strictly longer than the
3000-character budget is replaced by exactly its first 3000 characters
followed by the fixed truncation marker suffix; content of length at most
3000 is passed through unchanged; and the resulting content is placed
verbatim into the prompt (followed only by the prompt's final newline). -/
theorem C4_truncation (content path file_dir : String) (related : List String) :
    (3000 < content.length →
      truncateContent content = strTake content 3000 ++ truncMarker) ∧
    (content.length ≤ 3000 → truncateContent content = content) ∧
    (∃ pre, ∀ t, buildPrompt path file_dir related t = pre ++ t ++ "\n") := by
  refine ⟨fun h => ?_, fun h => ?_, ?_⟩
  · simp [truncateContent, h]
  · simp [truncateContent, Nat.not_lt.mpr h]
  · exact ⟨"\nSummarize the following markdown file in 3-5 concise sentences.\n\nFile: " ++ path ++
      "\nDirectory: " ++ file_dir ++
      "\nRelated images in same directory: " ++ pyReprList related ++
      "\n\nIf there are related images, mention them in the summary.\nEnd with: \"For full details, refer to: [" ++
      basename path ++ "](" ++ path ++ ")\"\n\nMarkdown content:\n",
      fun t => rfl⟩

/-- Witness for C4 at a 3001-character content (truncated) and a short
content (unchanged). -/
theorem C4_truncation_witness :
    (3000 < longContent.length ∧
      truncateContent longContent = strTake longContent 3000 ++ truncMarker) ∧
    ("hi".length ≤ 3000 ∧ truncateContent "hi" = "hi") := by
  have h : 3000 < longContent.length := by
    show 3000 < (List.replicate 3001 'a').length
    rw [List.length_replicate]
    omega
  exact ⟨⟨h, (C4_truncation longContent "a.md" "" []).1 h⟩,
    ⟨by decide, (C4_truncation "hi" "a.md" "" []).2.1 (by decide)⟩⟩

/-! ## Claim C5 -/

/-- C5 counterexample: a file with one related image but a model whose calls
all raise: the stored summary is the deterministic fallback text, which does
not end with the fixed image note — refuting the "regardless of whether the
summarization call succeeded or the fallback summary was used" part of the
claim. -/
theorem C5_counterexample :
    0 < (relatedImagesFor (some ["x.png"]) (dirname "a.md")).length ∧
    strEndsWith (summarize_one llmAllFail (some ["x.png"]) "a.md" "hello") imageNote = false := by
  decide

/-- C5 (amended): for every markdown file with at least one related image,
the stored summary ends with the fixed image note whenever one of the two
summarization attempts succeeds; when both attempts fail, the fallback
summary is stored, with no image note. -/
theorem C5_amended_note (llm : LLM) (imgs : Option (List String)) (path content : String)
    (hrel : 0 < (relatedImagesFor imgs (dirname path)).length) :
    (((llm.call (promptFor imgs path content) 0).isSome ∨
        (llm.call (promptFor imgs path content) 1).isSome) →
      strEndsWith (summarize_one llm imgs path content) imageNote = true) ∧
    (llm.call (promptFor imgs path content) 0 = none →
      llm.call (promptFor imgs path content) 1 = none →
      summarize_one llm imgs path content = fallbackSummary path) := by
  constructor
  · exact fun h => summarize_note_of_success llm imgs path content hrel h
  · intro h0 h1
    unfold summarize_one
    simp [h0, h1]

/-- Witness for C5 (amended) at a concrete input with a succeeding model. -/
theorem C5_amended_note_witness :
    0 < (relatedImagesFor (some ["x.png"]) (dirname "a.md")).length ∧
    strEndsWith (summarize_one llmOk (some ["x.png"]) "a.md" "hello") imageNote = true :=
  ⟨by decide,
    (C5_amended_note llmOk (some ["x.png"]) "a.md" "hello" (by decide)).1 (Or.inl (by decide))⟩

/-! ## Claim C9 -/

/-- C9 counterexample: a root-level file in a repository with an image, but a
model whose calls all raise: every image is classified as related, yet the
stored summary is the fallback text, which does not carry the image note —
refuting the "receives the image note" consequence of the claim. -/
theorem C9_counterexample :
    dirname "README.md" = "" ∧
    relatedImagesFor (some ["assets/logo.png"]) (dirname "README.md") = ["assets/logo.png"] ∧
    strEndsWith (summarize_one llmAllFail (some ["assets/logo.png"]) "README.md" "docs")
      imageNote = false := by
  decide

/-- C9 (amended): for every markdown file at the repository root (directory
prefix `""`), the related-images computation classifies every image in the
repository as related (every string starts with the empty string);
consequently such a file's summary carries the image note whenever some
summarization attempt succeeds (the fallback path adds no note, see the C5
counterexample). -/
theorem C9_amended_root (imgs : List String) (llm : LLM) (path content : String)
    (hroot : dirname path = "") :
    relatedImagesFor (some imgs) (dirname path) = imgs ∧
    (0 < imgs.length →
      ((llm.call (promptFor (some imgs) path content) 0).isSome ∨
        (llm.call (promptFor (some imgs) path content) 1).isSome) →
      strEndsWith (summarize_one llm (some imgs) path content) imageNote = true) := by
  have hall : relatedImagesFor (some imgs) (dirname path) = imgs := by
    rw [hroot]
    rcases imgs with _ | ⟨a, l⟩
    · rfl
    · show (if a :: l = [] then []
        else List.filter (fun img => strStartsWith img "") (a :: l)) = a :: l
      rw [if_neg (by simp)]
      apply List.filter_eq_self.mpr
      intro x _
      show List.isPrefixOf [] x.data = true
      exact List.isPrefixOf_nil_left
  refine ⟨hall, fun hlen hsucc => ?_⟩
  exact summarize_note_of_success llm (some imgs) path content (by rw [hall]; exact hlen) hsucc

/-- Witness for C9 (amended) at a concrete root-level file with a succeeding
model. -/
theorem C9_amended_root_witness :
    dirname "README.md" = "" ∧
    relatedImagesFor (some ["assets/logo.png"]) (dirname "README.md") = ["assets/logo.png"] ∧
    strEndsWith (summarize_one llmOk (some ["assets/logo.png"]) "README.md" "docs")
      imageNote = true := by
  have h := C9_amended_root ["assets/logo.png"] llmOk "README.md" "docs" (by decide)
  exact ⟨by decide, h.1, h.2 (by decide) (Or.inl (by decide))⟩

/-! ## Lemmas about `generate_onboarding_html` -/

theorem strExt {a b : String} (h : a.data = b.data) : a = b := by
  cases a; cases b
  exact congrArg String.mk h

/-- The rendered template, with its let-bindings spelled out: everything
before the date stamp, the date, the segment up to the branch field, the
branch value, and everything after. -/
theorem generate_eq (summaries repo_meta : List (String × String))
    (author company : String) (markdown_files : Option (List (String × String)))
    (image_files : Option (List String)) (current_date : String) :
    generate_onboarding_html summaries repo_meta author company markdown_files
        image_files current_date =
      htmlBeforeDate (dictGet repo_meta "repo" "Repository") company
          ("https://github.com/" ++ dictGet repo_meta "owner" "Unknown" ++ "/" ++
            dictGet repo_meta "repo" "Repository") author ++
        current_date ++
        htmlDateToBranch ++
        dictGet repo_meta "branch" "main" ++
        htmlAfterBranch summaries.length
          (buildSections (chooseOrganized summaries markdown_files)
            (dictGet repo_meta "owner" "Unknown") (dictGet repo_meta "repo" "Repository")).1
          (buildSections (chooseOrganized summaries markdown_files)
            (dictGet repo_meta "owner" "Unknown") (dictGet repo_meta "repo" "Repository")).2.1
          (create_image_gallery_section image_files (dictGet repo_meta "owner" "Unknown")
            (dictGet repo_meta "repo" "Repository"))
          ("https://github.com/" ++ dictGet repo_meta "owner" "Unknown" ++ "/" ++
            dictGet repo_meta "repo" "Repository") := rfl

theorem strContains_joinStrings_map {α : Type} (f : α → String) (l : List α) (x : α)
    (m : String) (hx : x ∈ l) (hf : strContains (f x) m) :
    strContains (joinStrings (l.map f)) m := by
  induction l with
  | nil => cases hx
  | cons a rest ih =>
    show strContains (f a ++ joinStrings (rest.map f)) m
    rcases List.mem_cons.mp hx with rfl | hx'
    · exact strContains_append_left _ _ _ hf
    · exact strContains_append_right _ _ _ (ih hx')

/-! ## Claim C7 -/

/-- C7: applied to an empty summaries mapping, `generate_onboarding_html`
does not fail (it is a total function in this embedding) and returns an HTML
string containing the cover block and the footer block, while the TOC/section
loop contributes no TOC entries and no per-file content sections (its state
stays `([], [], 1)`). -/
theorem C7_empty_summaries (repo_meta : List (String × String)) (author company : String)
    (markdown_files : Option (List (String × String))) (image_files : Option (List String))
    (current_date : String) :
    buildSections (chooseOrganized [] markdown_files)
        (dictGet repo_meta "owner" "Unknown") (dictGet repo_meta "repo" "Repository") =
      ([], [], 1) ∧
    strContains (generate_onboarding_html [] repo_meta author company markdown_files
      image_files current_date) coverDivLit ∧
    strContains (generate_onboarding_html [] repo_meta author company markdown_files
      image_files current_date) footerDivLit := by
  have horg : chooseOrganized [] markdown_files = [("Documentation", [])] := by
    cases markdown_files with
    | none => rfl
    | some m => simp [chooseOrganized]
  refine ⟨?_, ?_, ?_⟩
  · rw [horg]
    simp [buildSections]
  · rw [generate_eq]
    apply strContains_append_left
    apply strContains_append_left
    apply strContains_append_left
    apply strContains_append_left
    simp only [htmlBeforeDate]
    repeat first
      | exact strContains_append_right _ _ _ (strContains_refl _)
      | apply strContains_append_left
  · rw [generate_eq]
    apply strContains_append_right
    simp only [htmlAfterBranch]
    repeat first
      | exact strContains_append_right _ _ _ (strContains_refl _)
      | apply strContains_append_left

/-! ## Claim C8 -/

/-- C8: `generate_onboarding_html` is deterministic.  In this embedding it is
a pure function — two calls with identical inputs (summaries, repo metadata,
author, company, markdown files, image files, date) are the same term, hence
byte-identical — and for fixed remaining inputs there exist date-independent
strings `u` and `v` such that for every current date the output is
`u ++ date ++ v`: outputs for different dates differ only in the embedded
date stamp. -/
theorem C8_deterministic_modulo_date (summaries repo_meta : List (String × String))
    (author company : String) (markdown_files : Option (List (String × String)))
    (image_files : Option (List String)) :
    ∃ u v : String, ∀ current_date : String,
      generate_onboarding_html summaries repo_meta author company markdown_files
        image_files current_date = u ++ current_date ++ v := by
  refine ⟨htmlBeforeDate (dictGet repo_meta "repo" "Repository") company
      ("https://github.com/" ++ dictGet repo_meta "owner" "Unknown" ++ "/" ++
        dictGet repo_meta "repo" "Repository") author,
    htmlDateToBranch ++ dictGet repo_meta "branch" "main" ++
      htmlAfterBranch summaries.length
        (buildSections (chooseOrganized summaries markdown_files)
          (dictGet repo_meta "owner" "Unknown") (dictGet repo_meta "repo" "Repository")).1
        (buildSections (chooseOrganized summaries markdown_files)
          (dictGet repo_meta "owner" "Unknown") (dictGet repo_meta "repo" "Repository")).2.1
        (create_image_gallery_section image_files (dictGet repo_meta "owner" "Unknown")
          (dictGet repo_meta "repo" "Repository"))
        ("https://github.com/" ++ dictGet repo_meta "owner" "Unknown" ++ "/" ++
          dictGet repo_meta "repo" "Repository"), fun d => ?_⟩
  rw [generate_eq]
  apply strExt
  simp [strData_append, List.append_assoc]

/-- Every gallery item URL for a listed image uses the literal branch name
`main`. -/
theorem gallery_contains_main_url (imgs : List String) (ow rn img : String)
    (h : img ∈ imgs) :
    strContains (create_image_gallery_section (some imgs) ow rn)
      ("https://raw.githubusercontent.com/" ++ ow ++ "/" ++ rn ++ "/main/" ++ img) := by
  have hne : imgs ≠ [] := List.ne_nil_of_mem h
  have hitem : ∀ i : String, strContains (galleryItemHtml ow rn i)
      ("https://raw.githubusercontent.com/" ++ ow ++ "/" ++ rn ++ "/main/" ++ i) := by
    intro i
    simp only [galleryItemHtml]
    repeat first
      | exact strContains_append_right _ _ _ (strContains_refl _)
      | apply strContains_append_left
  simp only [create_image_gallery_section]
  rw [if_neg hne]
  by_cases h1 : isArchImage img
  · have hmem : img ∈ imgs.filter isArchImage := List.mem_filter.mpr ⟨h, h1⟩
    apply strContains_append_left
    apply strContains_append_left
    apply strContains_append_left
    apply strContains_append_right
    rw [if_pos (List.ne_nil_of_mem hmem)]
    apply strContains_append_left
    apply strContains_append_right
    exact strContains_joinStrings_map _ _ img _ hmem (hitem img)
  · by_cases h2 : isScreenImage img
    · have hmem : img ∈ imgs.filter (fun i => !(isArchImage i) && isScreenImage i) := by
        refine List.mem_filter.mpr ⟨h, ?_⟩
        simp [h1, h2]
      apply strContains_append_left
      apply strContains_append_left
      apply strContains_append_right
      rw [if_pos (List.ne_nil_of_mem hmem)]
      apply strContains_append_left
      apply strContains_append_right
      exact strContains_joinStrings_map _ _ img _ hmem (hitem img)
    · have hmem : img ∈ imgs.filter (fun i => !(isArchImage i) && !(isScreenImage i)) := by
        refine List.mem_filter.mpr ⟨h, ?_⟩
        simp [h1, h2]
      apply strContains_append_left
      apply strContains_append_right
      rw [if_pos (List.ne_nil_of_mem hmem)]
      apply strContains_append_left
      apply strContains_append_right
      exact strContains_joinStrings_map _ _ img _ hmem (hitem img)

/-! ## Claim C10 -/

/-- C10: the branch recorded in `repo_meta` appears in the generated HTML
only as the cover block's branch field — for fixed other inputs there are
branch-independent strings `u`, `v` with output `u ++ branch ++ v` — while
every per-file link in a content section and every gallery image URL is built
with the literal branch name `main`. -/
theorem C10_links_use_main :
    (∀ (summaries : List (String × String)) (rn ow author company : String)
        (markdown_files : Option (List (String × String)))
        (image_files : Option (List String)) (current_date : String),
      ∃ u v : String, ∀ b : String,
        generate_onboarding_html summaries [("repo", rn), ("owner", ow), ("branch", b)]
          author company markdown_files image_files current_date = u ++ b ++ v) ∧
    (∀ (file_path summary section_id ow rn : String)
        (image_files : Option (List String)),
      strContains (create_file_section file_path summary section_id image_files ow rn)
        ("https://github.com/" ++ ow ++ "/" ++ rn ++ "/blob/main/" ++ file_path)) ∧
    (∀ (imgs : List String) (ow rn img : String), img ∈ imgs →
      strContains (create_image_gallery_section (some imgs) ow rn)
        ("https://raw.githubusercontent.com/" ++ ow ++ "/" ++ rn ++ "/main/" ++ img)) := by
  refine ⟨?_, ?_, ?_⟩
  · intro summaries rn ow author company markdown_files image_files current_date
    refine ⟨htmlBeforeDate rn company ("https://github.com/" ++ ow ++ "/" ++ rn) author ++
        current_date ++ htmlDateToBranch,
      htmlAfterBranch summaries.length
        (buildSections (chooseOrganized summaries markdown_files) ow rn).1
        (buildSections (chooseOrganized summaries markdown_files) ow rn).2.1
        (create_image_gallery_section image_files ow rn)
        ("https://github.com/" ++ ow ++ "/" ++ rn), fun b => ?_⟩
    rw [generate_eq]
    have hrepo : dictGet [("repo", rn), ("owner", ow), ("branch", b)] "repo" "Repository" = rn := rfl
    have hown : dictGet [("repo", rn), ("owner", ow), ("branch", b)] "owner" "Unknown" = ow := rfl
    have hbr : dictGet [("repo", rn), ("owner", ow), ("branch", b)] "branch" "main" = b := rfl
    rw [hrepo, hown, hbr]
  · intro file_path summary section_id ow rn image_files
    simp only [create_file_section]
    repeat first
      | exact strContains_append_right _ _ _ (strContains_refl _)
      | apply strContains_append_left
  · exact fun imgs ow rn img h => gallery_contains_main_url imgs ow rn img h

/-- Witness for C10's quantified parts at concrete inputs, discharging the
membership hypothesis of the gallery part. -/
theorem C10_links_use_main_witness :
    strContains (create_file_section "docs/a.md" "s" "section-1" none "acme" "widgets")
      ("https://github.com/" ++ "acme" ++ "/" ++ "widgets" ++ "/blob/main/" ++ "docs/a.md") ∧
    ("img/diagram.png" ∈ ["img/diagram.png"] ∧
      strContains (create_image_gallery_section (some ["img/diagram.png"]) "acme" "widgets")
        ("https://raw.githubusercontent.com/" ++ "acme" ++ "/" ++ "widgets" ++ "/main/" ++
          "img/diagram.png")) :=
  ⟨C10_links_use_main.2.1 "docs/a.md" "s" "section-1" "acme" "widgets" none,
   ⟨by simp, C10_links_use_main.2.2 ["img/diagram.png"] "acme" "widgets" "img/diagram.png"
      (by simp)⟩⟩

/-! ## Claim C6 -/

theorem mem_keys_bucket (md s : List (String × String)) (i : Nat) (p : String) :
    p ∈ keys (bucket md s i) ↔ p ∈ keys md ∧ categoryIdx p = i := by
  unfold bucket
  generalize keys md = l
  induction l with
  | nil => simp
  | cons a rest ih =>
    by_cases ha : categoryIdx a = i
    · simp only [List.filterMap_cons, ha, if_pos rfl, keys_cons, List.mem_cons, ih]
      by_cases hp : p = a
      · subst hp; simp [ha]
      · simp [hp, ih]
    · rw [List.filterMap_cons]
      rw [if_neg ha]
      rw [ih]
      simp only [List.mem_cons]
      constructor
      · rintro ⟨hp, hc⟩; exact ⟨Or.inr hp, hc⟩
      · rintro ⟨(rfl | hp), hc⟩
        · exact absurd hc ha
        · exact ⟨hp, hc⟩

/-- A summaries dictionary with 21 entries (over the file-count threshold). -/
def s21 : List (String × String) :=
  [("f1.md", "s"), ("f2.md", "s"), ("f3.md", "s"), ("f4.md", "s"), ("f5.md", "s"),
   ("f6.md", "s"), ("f7.md", "s"), ("f8.md", "s"), ("f9.md", "s"), ("f10.md", "s"),
   ("f11.md", "s"), ("f12.md", "s"), ("f13.md", "s"), ("f14.md", "s"), ("f15.md", "s"),
   ("f16.md", "s"), ("f17.md", "s"), ("f18.md", "s"), ("f19.md", "s"), ("f20.md", "s"),
   ("f21.md", "s")]

/-- C6 counterexample: with 21 summaries and a markdown-file mapping that is
provided but empty, the threshold is exceeded and the mapping is provided,
yet Python's truthiness check `if markdown_files and len(summaries) > 20`
falls to the single undifferentiated category rather than the five-way
partition the claim requires. -/
theorem C6_counterexample :
    20 < s21.length ∧
    chooseOrganized s21 (some []) = [("Documentation", s21)] ∧
    chooseOrganized s21 (some []) ≠ organize_content_for_html [] s21 := by
  refine ⟨by decide, by simp [chooseOrganized], by decide⟩

/-- C6 (amended): in `generate_onboarding_html`, if the markdown-file mapping
is provided NON-EMPTY and the number of summaries exceeds the fixed threshold
of 20, the files are partitioned into the five fixed categories —
`readme.md`/`index.md` basename to "README and Main Docs"; otherwise a
directory containing "doc"/"guide" to "Documentation"; otherwise
"tutorial"/"example" to "Guides and Tutorials"; otherwise "api"/"reference"
to "API Reference"; everything else to "Other Files" (the decision chain
`categoryIdx`) — with each file in exactly one category; at or below the
threshold, without the mapping, or with an empty mapping, all summaries
render under the single "Documentation" category. -/
theorem C6_amended_categories (s md : List (String × String)) :
    (md ≠ [] → 20 < s.length →
      chooseOrganized s (some md) = organize_content_for_html md s) ∧
    (s.length ≤ 20 → chooseOrganized s (some md) = [("Documentation", s)]) ∧
    chooseOrganized s none = [("Documentation", s)] ∧
    chooseOrganized s (some []) = [("Documentation", s)] ∧
    organize_content_for_html md s =
      [("README and Main Docs", bucket md s 0), ("Documentation", bucket md s 1),
       ("Guides and Tutorials", bucket md s 2), ("API Reference", bucket md s 3),
       ("Other Files", bucket md s 4)] ∧
    (∀ (p : String) (i : Nat),
      p ∈ keys (bucket md s i) ↔ p ∈ keys md ∧ categoryIdx p = i) ∧
    (∀ p : String, p ∈ keys md → ∃! i : Nat, p ∈ keys (bucket md s i)) := by
  refine ⟨fun hmd hlen => ?_, fun hlen => ?_, rfl, by simp [chooseOrganized], rfl,
    fun p i => mem_keys_bucket md s i p, fun p hp => ?_⟩
  · simp [chooseOrganized, hmd, hlen]
  · simp [chooseOrganized, Nat.not_lt.mpr hlen]
  · refine ⟨categoryIdx p, (mem_keys_bucket md s (categoryIdx p) p).mpr ⟨hp, rfl⟩,
      fun j hj => ?_⟩
    exact ((mem_keys_bucket md s j p).mp hj).2.symm

/-- Witness for C6 (amended) at a concrete 21-file input: the five-way
partition is taken, and a concrete path lands in the "Other Files" bucket. -/
theorem C6_amended_categories_witness :
    s21 ≠ [] ∧ 20 < s21.length ∧
    chooseOrganized s21 (some s21) = organize_content_for_html s21 s21 ∧
    ("f1.md" ∈ keys (bucket s21 s21 4) ↔ "f1.md" ∈ keys s21 ∧ categoryIdx "f1.md" = 4) := by
  have h := C6_amended_categories s21 s21
  exact ⟨by decide, by decide, h.1 (by decide) (by decide), h.2.2.2.2.2.1 "f1.md" 4⟩


theorem pySplit_ne_nil (sep : Char) : ∀ l : List Char, pySplit sep l ≠ []
  | [] => by simp [pySplit]
  | c :: cs => by
    unfold pySplit
    cases h : pySplit sep cs with
    | nil => simp
    | cons s ss => by_cases hc : c = sep <;> simp [hc]

theorem pySplit_cons_sep (sep : Char) (cs : List Char) :
    pySplit sep (sep :: cs) = [] :: pySplit sep cs := by
  conv_lhs => rw [pySplit]
  cases h : pySplit sep cs with
  | nil => exact absurd h (pySplit_ne_nil sep cs)
  | cons s ss => simp

theorem pySplit_cons_ne (sep c : Char) (cs : List Char) (hc : c ≠ sep) :
    ∃ s ss, pySplit sep cs = s :: ss ∧ pySplit sep (c :: cs) = (c :: s) :: ss := by
  cases h : pySplit sep cs with
  | nil => exact absurd h (pySplit_ne_nil sep cs)
  | cons s ss =>
    refine ⟨s, ss, rfl, ?_⟩
    conv_lhs => rw [pySplit]
    rw [h]
    simp [hc]

/-- Segments that survive the nonempty filter. -/
def filterNE (segs : List (List Char)) : List (List Char) :=
  segs.filter (fun seg => !seg.isEmpty)

theorem filterNE_cons_nil (segs : List (List Char)) :
    filterNE ([] :: segs) = filterNE segs := by
  simp [filterNE]

theorem filterNE_pySplit_dropWhile (sep : Char) (l : List Char) :
    filterNE (pySplit sep (l.dropWhile (fun x => x = sep))) = filterNE (pySplit sep l) := by
  induction l with
  | nil => rfl
  | cons c cs ih =>
    by_cases hc : c = sep
    · subst hc
      rw [List.dropWhile_cons_of_pos (by simp)]
      rw [ih, pySplit_cons_sep, filterNE_cons_nil]
    · rw [List.dropWhile_cons_of_neg (by simp [hc])]

theorem pySplit_append_sep (sep : Char) (l : List Char) :
    pySplit sep (l ++ [sep]) = pySplit sep l ++ [[]] := by
  induction l with
  | nil => simp [pySplit]
  | cons c cs ih =>
    obtain ⟨s, ss, hss⟩ : ∃ s ss, pySplit sep cs = s :: ss := by
      cases h : pySplit sep cs with
      | nil => exact absurd h (pySplit_ne_nil sep cs)
      | cons s ss => exact ⟨s, ss, rfl⟩
    show pySplit sep (c :: (cs ++ [sep])) = pySplit sep (c :: cs) ++ [[]]
    conv_lhs => rw [pySplit]
    conv_rhs => rw [pySplit]
    rw [ih, hss]
    by_cases hc : c = sep <;> simp [hc]

theorem filterNE_append_nil_seg (segs : List (List Char)) :
    filterNE (segs ++ [[]]) = filterNE segs := by
  simp [filterNE]

theorem filterNE_pySplit_append_replicate (sep : Char) (k : Nat) :
    ∀ l : List Char,
      filterNE (pySplit sep (l ++ List.replicate k sep)) = filterNE (pySplit sep l) := by
  induction k with
  | zero => intro l; simp
  | succ k ih =>
    intro l
    have hsplit : l ++ List.replicate (k + 1) sep = (l ++ [sep]) ++ List.replicate k sep := by
      simp [List.replicate_succ]
    rw [hsplit, ih (l ++ [sep]), pySplit_append_sep, filterNE_append_nil_seg]

theorem strip_decomposition (sep : Char) (l : List Char) :
    l.dropWhile (fun x => x = sep) =
      pyStrip sep l ++ List.replicate
        (((l.dropWhile (fun x => x = sep)).reverse.takeWhile (fun x => x = sep)).length) sep := by
  set L := l.dropWhile (fun x => x = sep) with hL
  have h1 : L.reverse = L.reverse.takeWhile (fun x => x = sep) ++
      L.reverse.dropWhile (fun x => x = sep) :=
    (List.takeWhile_append_dropWhile _ _).symm
  have h2 : L.reverse.takeWhile (fun x => x = sep) =
      List.replicate ((L.reverse.takeWhile (fun x => x = sep)).length) sep := by
    apply List.eq_replicate_of_mem
    intro b hb
    have hb2 := List.mem_takeWhile_imp hb
    exact of_decide_eq_true hb2
  calc L = L.reverse.reverse := (List.reverse_reverse L).symm
    _ = (L.reverse.takeWhile (fun x => x = sep) ++
          L.reverse.dropWhile (fun x => x = sep)).reverse := by rw [← h1]
    _ = (L.reverse.dropWhile (fun x => x = sep)).reverse ++
          (L.reverse.takeWhile (fun x => x = sep)).reverse := by
        rw [List.reverse_append]
    _ = pyStrip sep l ++ List.replicate
          ((L.reverse.takeWhile (fun x => x = sep)).length) sep := by
        rw [pyStrip]
        congr 1
        rw [h2]
        simp

theorem filterNE_pySplit_pyStrip (sep : Char) (l : List Char) :
    filterNE (pySplit sep (pyStrip sep l)) = filterNE (pySplit sep l) := by
  rw [← filterNE_pySplit_dropWhile sep l, strip_decomposition sep l,
    filterNE_pySplit_append_replicate]

theorem dropWhile_head_not (p : Char → Bool) (l : List Char) (c : Char) (cs : List Char)
    (h : l.dropWhile p = c :: cs) : p c = false := by
  have hh := List.head?_dropWhile_not p l
  rw [h] at hh
  simpa using hh

theorem pyStrip_head_ne (sep : Char) (l : List Char) (c : Char) (cs : List Char)
    (h : pyStrip sep l = c :: cs) : c ≠ sep := by
  have hdec := strip_decomposition sep l
  rw [h] at hdec
  have : l.dropWhile (fun x => x = sep) = c :: (cs ++ List.replicate
      (((l.dropWhile (fun x => x = sep)).reverse.takeWhile (fun x => x = sep)).length) sep) := by
    simpa using hdec
  have hfalse := dropWhile_head_not (fun x => x = sep) l c _ this
  simpa using hfalse

theorem pyStrip_getLast_ne (sep : Char) (l : List Char) :
    (pyStrip sep l).getLast? ≠ some sep := by
  unfold pyStrip
  cases hY : (l.dropWhile (fun x => x = sep)).reverse.dropWhile (fun x => x = sep) with
  | nil => simp
  | cons c cs =>
    have hfalse := dropWhile_head_not (fun x => x = sep) _ c cs hY
    rw [List.getLast?_reverse]
    simp only [List.head?_cons]
    intro hcon
    have : c = sep := by injection hcon
    simp [this] at hfalse

theorem pySplit_last_nonempty (sep : Char) (m : List Char) (hm : m ≠ [])
    (hlast : m.getLast? ≠ some sep) :
    ∃ init lastp, pySplit sep m = init ++ [lastp] ∧ lastp ≠ [] := by
  induction m with
  | nil => exact absurd rfl hm
  | cons c cs ih =>
    cases cs with
    | nil =>
      have hc : c ≠ sep := by
        intro hcon
        apply hlast
        simp [hcon]
      obtain ⟨s, ss, h1, h2⟩ := pySplit_cons_ne sep c [] hc
      have h1' : ([[]] : List (List Char)) = s :: ss := h1
      have hs : s = [] := by injection h1' with ha hb; exact ha.symm
      have hss : ss = [] := by injection h1' with ha hb; exact hb.symm
      subst hs; subst hss
      exact ⟨[], [c], by simpa using h2, by simp⟩
    | cons c2 cs2 =>
      have hlast2 : (c2 :: cs2).getLast? ≠ some sep := by
        simpa [List.getLast?_cons_cons] using hlast
      obtain ⟨init, lastp, hsplit, hne⟩ := ih (by simp) hlast2
      by_cases hc : c = sep
      · subst hc
        rw [pySplit_cons_sep, hsplit]
        exact ⟨[] :: init, lastp, by simp, hne⟩
      · obtain ⟨s, ss, h1, h2⟩ := pySplit_cons_ne sep c (c2 :: cs2) hc
        rw [hsplit] at h1
        cases init with
        | nil =>
          simp only [List.nil_append] at h1
          obtain ⟨hs, hss⟩ := List.cons.inj h1
          subst hss
          exact ⟨[], c :: s, by simpa using h2, by simp⟩
        | cons i0 irest =>
          simp only [List.cons_append] at h1
          obtain ⟨hi0, hss⟩ := List.cons.inj h1
          refine ⟨(c :: s) :: irest, lastp, ?_, hne⟩
          rw [h2, ← hss]
          simp

theorem two_le_filterNE_of_stripped (sep : Char) (m : List Char)
    (hhead : ∀ c cs, m = c :: cs → c ≠ sep)
    (hlast : m.getLast? ≠ some sep)
    (hlen : 2 ≤ (pySplit sep m).length) :
    2 ≤ (filterNE (pySplit sep m)).length := by
  cases m with
  | nil => simp [pySplit] at hlen
  | cons c cs =>
    have hc : c ≠ sep := hhead c cs rfl
    obtain ⟨s, ss, h1, h2⟩ := pySplit_cons_ne sep c cs hc
    obtain ⟨init, lastp, hsplit, hlne⟩ := pySplit_last_nonempty sep (c :: cs) (by simp) hlast
    cases init with
    | nil =>
      rw [hsplit] at hlen
      simp at hlen
    | cons i0 irest =>
      have heq : (i0 :: irest) ++ [lastp] = (c :: s) :: ss := by
        rw [← hsplit, h2]
      simp only [List.cons_append] at heq
      obtain ⟨hi0, hss⟩ := List.cons.inj heq
      rw [hsplit]
      subst hi0
      simp only [List.cons_append, filterNE, List.filter_cons, List.filter_append]
      have hlp : (!lastp.isEmpty) = true := by
        cases lastp with
        | nil => exact absurd rfl hlne
        | cons x xs => rfl
      simp [hlp]


/-! ## Claim C2 -/

/-- The non-empty `/`-separated segments of a URL path, counting segments the
way the claim states them (on the parsed path, before any stripping). -/
def nonEmptySegments (urlPath : String) : List (List Char) :=
  filterNE (pySplit '/' urlPath.data)

/-- C2: for every network behaviour and every input URL whose parsed path has
fewer than two non-empty segments, `fetch_repository_docs` raises the
invalid-reference `ValueError` and performs no network call at all (no branch
lookup, no tree listing, no file download: the call log is empty). -/
theorem C2_invalid_reference (net : Network) (urlPath : String)
    (h : (nonEmptySegments urlPath).length < 2) :
    fetch_repository_docs net urlPath = (Except.error invalidUrlMsg, []) := by
  have hlt : (pySplit '/' (pyStrip '/' urlPath.data)).length < 2 := by
    by_contra hge
    push_neg at hge
    have hB := two_le_filterNE_of_stripped '/' (pyStrip '/' urlPath.data)
      (fun c cs hc => pyStrip_head_ne '/' urlPath.data c cs hc)
      (pyStrip_getLast_ne '/' urlPath.data) hge
    rw [filterNE_pySplit_pyStrip] at hB
    have hlt2 : (filterNE (pySplit '/' urlPath.data)).length < 2 := h
    omega
  have hp : parse_repo_url urlPath = Except.error invalidUrlMsg := by
    simp [parse_repo_url, hlt]
  simp [fetch_repository_docs, hp]

/-- Concrete network oracle for witnesses. -/
def netStub : Network := ⟨some "main", some [], fun _ => none⟩

/-- Witness for C2 at the one-segment path `/acme`. -/
theorem C2_invalid_reference_witness :
    (nonEmptySegments "/acme").length < 2 ∧
    fetch_repository_docs netStub "/acme" = (Except.error invalidUrlMsg, []) :=
  ⟨by decide, C2_invalid_reference netStub "/acme" (by decide)⟩

/-! ## Claim C1 -/

theorem processItem_fst (download : String → Option String)
    (acc : List (String × String) × List String) (it : TreeItem) :
    (processItem download acc it).1 =
      if it.type = "blob" ∧ strEndsWith (pyLower it.path) ".md" = true then
        (match download it.path with
          | some content => if content ≠ "" then dictInsert acc.1 it.path content else acc.1
          | none => acc.1)
      else acc.1 := by
  unfold processItem
  by_cases ht : it.type = "blob"
  · rw [if_neg (by simp [ht])]
    dsimp only
    by_cases hmd : strEndsWith (pyLower it.path) ".md" = true
    · cases hdl : download it.path with
      | some content =>
        by_cases hc : content = ""
        · subst hc
          by_cases himg : isImagePath (pyLower it.path) = true <;>
            simp [ht, hmd, himg]
        · by_cases himg : isImagePath (pyLower it.path) = true <;>
            simp [ht, hmd, hc, himg]
      | none =>
        by_cases himg : isImagePath (pyLower it.path) = true <;>
          simp [ht, hmd, himg]
    · by_cases himg : isImagePath (pyLower it.path) = true <;>
        simp [ht, hmd, himg]
  · rw [if_pos (by simp [ht]), if_neg (by simp [ht])]

theorem mem_keys_processItem (download : String → Option String)
    (acc : List (String × String) × List String) (it : TreeItem) (p : String) :
    p ∈ keys (processItem download acc it).1 ↔
      p ∈ keys acc.1 ∨
        (it.type = "blob" ∧ it.path = p ∧ strEndsWith (pyLower p) ".md" = true ∧
          ∃ c, download p = some c ∧ c ≠ "") := by
  rw [processItem_fst]
  by_cases hcond : it.type = "blob" ∧ strEndsWith (pyLower it.path) ".md" = true
  · rw [if_pos hcond]
    cases hdl : download it.path with
    | some content =>
      dsimp only
      by_cases hc : content = ""
      · subst hc
        rw [if_neg (by simp)]
        constructor
        · exact Or.inl
        · rintro (h | ⟨hb, rfl, hmd, c, hdc, hcne⟩)
          · exact h
          · rw [hdl] at hdc
            injection hdc with h2
            exact absurd h2.symm hcne
      · rw [if_pos hc]
        rw [mem_keys_dictInsert]
        constructor
        · rintro (rfl | h)
          · exact Or.inr ⟨hcond.1, rfl, hcond.2, content, hdl, hc⟩
          · exact Or.inl h
        · rintro (h | ⟨hb, rfl, hmd, c, hdc, hcne⟩)
          · exact Or.inr h
          · exact Or.inl rfl
    | none =>
      dsimp only
      constructor
      · exact Or.inl
      · rintro (h | ⟨hb, rfl, hmd, c, hdc, hcne⟩)
        · exact h
        · rw [hdl] at hdc
          exact Option.noConfusion hdc
  · rw [if_neg hcond]
    constructor
    · exact Or.inl
    · rintro (h | ⟨hb, rfl, hmd, c, hdc, hcne⟩)
      · exact h
      · exact absurd ⟨hb, hmd⟩ hcond

theorem mem_keys_processTree_aux (download : String → Option String) (tree : List TreeItem) :
    ∀ (acc : List (String × String) × List String) (p : String),
      p ∈ keys (tree.foldl (processItem download) acc).1 ↔
        p ∈ keys acc.1 ∨
          ∃ it ∈ tree, it.type = "blob" ∧ it.path = p ∧
            strEndsWith (pyLower p) ".md" = true ∧ ∃ c, download p = some c ∧ c ≠ "" := by
  induction tree with
  | nil => intro acc p; simp
  | cons it rest ih =>
    intro acc p
    rw [List.foldl_cons, ih, mem_keys_processItem]
    constructor
    · rintro ((h | hitem) | hrest)
      · exact Or.inl h
      · exact Or.inr ⟨it, by simp, hitem⟩
      · obtain ⟨it2, hmem, hcond2⟩ := hrest
        exact Or.inr ⟨it2, by simp [hmem], hcond2⟩
    · rintro (h | ⟨it2, hmem, hcond2⟩)
      · exact Or.inl (Or.inl h)
      · rcases List.mem_cons.mp hmem with rfl | hmem2
        · exact Or.inl (Or.inr hcond2)
        · exact Or.inr ⟨it2, hmem2, hcond2⟩

theorem mem_keys_processTree (download : String → Option String) (tree : List TreeItem)
    (p : String) :
    p ∈ keys (processTree download tree).1 ↔
      ∃ it ∈ tree, it.type = "blob" ∧ it.path = p ∧
        strEndsWith (pyLower p) ".md" = true ∧ ∃ c, download p = some c ∧ c ≠ "" := by
  unfold processTree
  rw [mem_keys_processTree_aux]
  simp

theorem processItem_value (download : String → Option String)
    (acc : List (String × String) × List String) (it : TreeItem)
    (hacc : ∀ q c, q ∈ keys acc.1 → download q = some c → dictGet acc.1 q "" = c) :
    ∀ q c, q ∈ keys (processItem download acc it).1 → download q = some c →
      dictGet (processItem download acc it).1 q "" = c := by
  intro q c hq hdc
  rw [processItem_fst] at hq ⊢
  by_cases hcond : it.type = "blob" ∧ strEndsWith (pyLower it.path) ".md" = true
  · rw [if_pos hcond] at hq ⊢
    cases hdl : download it.path with
    | some content =>
      rw [hdl] at hq
      dsimp only at hq ⊢
      by_cases hce : content = ""
      · subst hce
        rw [if_neg (by simp)] at hq ⊢
        exact hacc q c hq hdc
      · rw [if_pos hce] at hq ⊢
        by_cases hqp : q = it.path
        · subst hqp
          rw [dictGet_dictInsert_self]
          rw [hdl] at hdc
          injection hdc
        · rw [dictGet_dictInsert_ne _ _ _ _ _ hqp]
          rw [mem_keys_dictInsert] at hq
          rcases hq with rfl | hq2
          · exact absurd rfl hqp
          · exact hacc q c hq2 hdc
    | none =>
      rw [hdl] at hq
      dsimp only at hq ⊢
      exact hacc q c hq hdc
  · rw [if_neg hcond] at hq ⊢
    exact hacc q c hq hdc

theorem processTree_value_aux (download : String → Option String) (tree : List TreeItem) :
    ∀ (acc : List (String × String) × List String),
      (∀ q c, q ∈ keys acc.1 → download q = some c → dictGet acc.1 q "" = c) →
      ∀ q c, q ∈ keys (tree.foldl (processItem download) acc).1 → download q = some c →
        dictGet (tree.foldl (processItem download) acc).1 q "" = c := by
  induction tree with
  | nil => intro acc hacc; simpa using hacc
  | cons it rest ih =>
    intro acc hacc
    rw [List.foldl_cons]
    exact ih (processItem download acc it) (processItem_value download acc it hacc)

theorem processTree_value (download : String → Option String) (tree : List TreeItem)
    (q c : String) (hq : q ∈ keys (processTree download tree).1)
    (hdc : download q = some c) :
    dictGet (processTree download tree).1 q "" = c := by
  unfold processTree at hq ⊢
  exact processTree_value_aux download tree ([], []) (by simp) q c hq hdc

/-- A mocked network where the only tree entry is a markdown blob whose raw
download returns HTTP 200 with an empty body. -/
def netEmptyMd : Network :=
  ⟨some "main", some [TreeItem.mk "blob" "README.md"], fun _ => some ""⟩

/-- C1 counterexample: `README.md` is listed as a blob, ends in `.md`, and its
download returns HTTP 200 (with empty text) — so the claim requires it among
the keys — yet `fetch_repository_docs` returns an empty markdown mapping,
because `if content:` rejects the falsy empty string. -/
theorem C1_counterexample :
    (∃ it ∈ [TreeItem.mk "blob" "README.md"], it.type = "blob" ∧ it.path = "README.md") ∧
    strEndsWith (pyLower "README.md") ".md" = true ∧
    netEmptyMd.download "README.md" = some "" ∧
    netEmptyMd.treeResult = some [TreeItem.mk "blob" "README.md"] ∧
    (fetch_repository_docs netEmptyMd "/acme/widgets").1 =
      Except.ok (FetchResult.mk [] [] "main" "widgets" "acme") ∧
    "README.md" ∉ keys (FetchResult.mk [] [] "main" "widgets" "acme").markdown_files := by
  refine ⟨⟨TreeItem.mk "blob" "README.md", by simp, rfl, rfl⟩, by decide, rfl, rfl, ?_, by simp⟩
  rfl

/-- C1 (amended): for every network behaviour under which
`fetch_repository_docs` succeeds, the keys of the returned markdown mapping
are exactly the tree blobs whose path ends in `.md` (case-insensitively) that
were listed and whose download returned HTTP 200 with non-empty (truthy)
text; each key maps to the downloaded raw text. -/
theorem C1_amended_fetch_keys (net : Network) (urlPath : String) (r : FetchResult)
    (log : List NetCall)
    (hfetch : fetch_repository_docs net urlPath = (Except.ok r, log)) :
    (∀ p : String,
      p ∈ keys r.markdown_files ↔
        ∃ it ∈ net.treeResult.getD [], it.type = "blob" ∧ it.path = p ∧
          strEndsWith (pyLower p) ".md" = true ∧
          ∃ c, net.download p = some c ∧ c ≠ "") ∧
    (∀ p c, net.download p = some c → p ∈ keys r.markdown_files →
      dictGet r.markdown_files p "" = c) := by
  unfold fetch_repository_docs at hfetch
  cases hparse : parse_repo_url urlPath with
  | error e =>
    rw [hparse] at hfetch
    simp at hfetch
  | ok pr =>
    obtain ⟨owner, repo⟩ := pr
    rw [hparse] at hfetch
    cases hbr : net.branchResult with
    | none => rw [hbr] at hfetch; simp at hfetch
    | some branch =>
      rw [hbr] at hfetch
      cases htr : net.treeResult with
      | none => rw [htr] at hfetch; simp at hfetch
      | some tree =>
        rw [htr] at hfetch
        dsimp only at hfetch
        have hr : Except.ok (FetchResult.mk (processTree net.download tree).1
            (processTree net.download tree).2 branch repo owner) = Except.ok r :=
          congrArg Prod.fst hfetch
        have hr2 : r = FetchResult.mk (processTree net.download tree).1
            (processTree net.download tree).2 branch repo owner :=
          (Except.ok.inj hr).symm
        subst hr2
        constructor
        · intro p
          simp only [Option.getD_some]
          exact mem_keys_processTree net.download tree p
        · intro p c hdc hp
          exact processTree_value net.download tree p c hp hdc

/-- A mocked network with one good markdown file, one image, a directory
entry, and a second markdown file whose download returns 200 with empty
text. -/
def netWit : Network :=
  ⟨some "main",
   some [TreeItem.mk "blob" "README.md", TreeItem.mk "blob" "img.png",
         TreeItem.mk "tree" "docs", TreeItem.mk "blob" "docs/guide.md"],
   fun p => if p = "README.md" then some "# hi"
            else if p = "docs/guide.md" then some "" else none⟩

/-- The fetch result on `netWit`. -/
def fetchResWit : FetchResult :=
  FetchResult.mk [("README.md", "# hi")] ["img.png"] "main" "widgets" "acme"

/-- The network calls performed on `netWit`. -/
def fetchLogWit : List NetCall :=
  [NetCall.branchLookup "acme" "widgets", NetCall.treeList "acme" "widgets" "main",
   NetCall.rawDownload "acme" "widgets" "main" "README.md",
   NetCall.rawDownload "acme" "widgets" "main" "docs/guide.md"]

/-- Witness for C1 (amended) at a concrete mocked repository. -/
theorem C1_amended_fetch_keys_witness :
    fetch_repository_docs netWit "/acme/widgets" = (Except.ok fetchResWit, fetchLogWit) ∧
    ("README.md" ∈ keys fetchResWit.markdown_files ↔
      ∃ it ∈ netWit.treeResult.getD [], it.type = "blob" ∧ it.path = "README.md" ∧
        strEndsWith (pyLower "README.md") ".md" = true ∧
        ∃ c, netWit.download "README.md" = some c ∧ c ≠ "") ∧
    dictGet fetchResWit.markdown_files "README.md" "" = "# hi" := by
  have hfetch : fetch_repository_docs netWit "/acme/widgets" =
      (Except.ok fetchResWit, fetchLogWit) := by rfl
  have h := C1_amended_fetch_keys netWit "/acme/widgets" fetchResWit fetchLogWit hfetch
  exact ⟨hfetch, h.1 "README.md", h.2 "README.md" "# hi" rfl (by decide)⟩

end Onboarding

